import Mathlib

/-!
Verification of the two pattern programs in this repository:
`src/concentric-square/concentric_square.c` and `src/triangle/triangle.c`.

The C code is embedded shallowly: each `printf` call becomes one element of a
`List String` of output chunks, machine `int` arithmetic becomes `Int`
arithmetic (all quantities involved are far below any overflow boundary),
and the nested `for` loops become maps over `List.range`.  The `main`
functions take the result of `scanf("%d", ...)` as an `Option Int`
(`none` = parse failure) and return the pair (output chunks, exit code).
-/

/-- A horizontal bar of `k` copies of the character `=`, as printed by the
banner lines of both `main` functions. -/
def eqBar (k : Nat) : String := String.join (List.replicate k "=")

namespace ConcentricSquare

/-- The per-cell formula of `print_concentric_square`
(`concentric_square.c`, lines 74-120): the grid is split at the
anti-diagonal; for `i + j < m` the cell is `MAX(n - i, n - j)`,
otherwise `MAX(i - n, j - n) + 2`, with `m = 2 * n - 1`. -/
def cellValue (n i j : Int) : Int :=
  if i + j < 2 * n - 1 then max (n - i) (n - j) else max (i - n) (j - n) + 2

/-- The grid of values printed by `print_concentric_square n` for `n ≥ 1`:
row `i` of the `m × m` grid, `m = 2n - 1`, holds `cellValue n i j`
for `j = 0, ..., m-1`. -/
def squareGrid (n : Int) : List (List Int) :=
  (List.range (2 * n - 1).toNat).map fun i =>
    (List.range (2 * n - 1).toNat).map fun j =>
      cellValue n (Int.ofNat i) (Int.ofNat j)

/-- Output chunks of `print_concentric_square` (`concentric_square.c`,
lines 55-126): on `n <= 0` only the error line is printed; otherwise each
cell is printed as `printf("%d ", v)` and each row is closed by
`printf("\n")`. -/
def print_concentric_square (n : Int) : List String :=
  if n ≤ 0 then ["Error: n must be a positive integer\n"]
  else
    ((List.range (2 * n - 1).toNat).map fun i =>
      ((List.range (2 * n - 1).toNat).map fun j =>
        toString (cellValue n (Int.ofNat i) (Int.ofNat j)) ++ " ") ++ ["\n"]).flatten

/-- Alternative anti-diagonal split that uses the strict condition
`i + j < m - 1`, so the anti-diagonal `i + j = m - 1` is assigned to the
lower-right region instead of the upper-left one.  Stated by the spec
(design note on the `+2` offset) to be an equivalent split. -/
def cellValueLowerDiag (n i j : Int) : Int :=
  if i + j < 2 * n - 2 then max (n - i) (n - j) else max (i - n) (j - n) + 2

/-- Output chunks of `visualize_regions` (`concentric_square.c`, lines
132-149): a header line, then for each cell `"U "` or `"L "` according to
the side of the anti-diagonal, a newline per row, and one final newline.
Note the source performs no validation of `n` here; for `n <= 0` the loop
bound `m = 2n - 1` is negative so no row is printed. -/
def visualize_regions (n : Int) : List String :=
  ["Region visualization (U = Upper-left, L = Lower-right):\n"]
    ++ ((List.range (2 * n - 1).toNat).map fun i =>
        ((List.range (2 * n - 1).toNat).map fun j =>
          if Int.ofNat i + Int.ofNat j < 2 * n - 1 then "U " else "L ") ++ ["\n"]).flatten
    ++ ["\n"]

/-- `main` of `concentric_square.c` (lines 154-191).  The `scanf` result is
passed in as `none` (parse failure) or `some size`; the result is the pair
of the printed chunks and the exit code. -/
def main (inp : Option Int) : List String × Int :=
  match inp with
  | none =>
    (["Concentric Square Pattern - Diagonal Decomposition\n",
      eqBar 50 ++ "\n\n",
      "Enter the size parameter n: ",
      "Invalid input. Please enter a positive integer.\n"], 1)
  | some size =>
    (["Concentric Square Pattern - Diagonal Decomposition\n",
      eqBar 50 ++ "\n\n",
      "Enter the size parameter n: ", "\n"]
      ++ (if size ≤ 7 then visualize_regions size else [])
      ++ ["Concentric square pattern:\n"]
      ++ print_concentric_square size
      ++ ["\n"]
      ++ (["\nExamples of other sizes:\n", "------------------------\n\n", "n = 3:\n"]
          ++ print_concentric_square 3
          ++ ["\nn = 5:\n"] ++ print_concentric_square 5), 0)

end ConcentricSquare

namespace Triangle

/-- The single loop of `print_triangle` (`triangle.c`, lines 63-74),
embedded with the remaining iteration count as fuel: the C loop body at
counter value `i` with row counter `row` prints `"* "`, then prints a
newline and increments `row` exactly when `i == row * (row + 1) / 2`. -/
def triLoop (row i : Nat) : Nat → List String
  | 0 => []
  | fuel + 1 =>
    "* " :: (if i = row * (row + 1) / 2
      then "\n" :: triLoop (row + 1) (i + 1) fuel
      else triLoop row (i + 1) fuel)

/-- Output chunks of `print_triangle` (`triangle.c`, lines 47-74): on
`n <= 0` only the error line; otherwise the loop runs for
`total = n * (n + 1) / 2` iterations starting at `i = 1`, `row = 1`. -/
def print_triangle (n : Int) : List String :=
  if n ≤ 0 then ["Error: n must be a positive integer\n"]
  else triLoop 1 1 (n.toNat * (n.toNat + 1) / 2)

/-- The rows the spec describes: row `k` (1-indexed, `k = 1, ..., n`) is
`k` copies of the glyph `"* "` followed immediately by one newline. -/
def triangleRows (n : Nat) : List String :=
  ((List.range n).map fun k => List.replicate (k + 1) "* " ++ ["\n"]).flatten

/-- Rows `r, r + 1, ..., r + d - 1` in the shape of `triangleRows`. -/
def rowsFrom (r : Nat) : Nat → List String
  | 0 => []
  | d + 1 => List.replicate r "* " ++ ["\n"] ++ rowsFrom (r + 1) d

/-- Loop iterations needed to print rows `r, ..., r + d - 1`. -/
def fuelFrom (r : Nat) : Nat → Nat
  | 0 => 0
  | d + 1 => r + fuelFrom (r + 1) d

/-- `main` of `triangle.c` (lines 79-110).  The `scanf` result is passed
in as `none` (parse failure) or `some size`; the result is the pair of
the printed chunks and the exit code. -/
def main (inp : Option Int) : List String × Int :=
  match inp with
  | none =>
    (["Right Triangle Pattern - Single Loop Implementation\n",
      eqBar 51 ++ "\n\n",
      "Enter the height of the triangle: ",
      "Invalid input. Please enter a positive integer.\n"], 1)
  | some size =>
    (["Right Triangle Pattern - Single Loop Implementation\n",
      eqBar 51 ++ "\n\n",
      "Enter the height of the triangle: ", "\n"]
      ++ print_triangle size
      ++ ["\n"]
      ++ (["\nExamples of other sizes:\n", "------------------------\n\n", "n = 3:\n"]
          ++ print_triangle 3
          ++ ["\nn = 6:\n"] ++ print_triangle 6), 0)

end Triangle

theorem tri_step (t : Nat) :
    t * (t + 1) / 2 + (t + 1) = (t + 1) * (t + 1 + 1) / 2 := by
  have h : (t + 1) * (t + 1 + 1) = t * (t + 1) + 2 * (t + 1) := by ring
  omega

/-- One row of the loop: starting at counter `i` with `i + c` equal to the
row's triangular number, the next `c + 1` iterations print `c + 1` glyphs
and one newline, then continue with the next row. -/
theorem triLoop_row (r : Nat) :
    ∀ c rest i, i + c = r * (r + 1) / 2 →
      Triangle.triLoop r i (c + rest + 1)
        = List.replicate (c + 1) "* " ++ ["\n"]
            ++ Triangle.triLoop (r + 1) (r * (r + 1) / 2 + 1) rest := by
  intro c
  induction c with
  | zero =>
    intro rest i h
    have hi : i = r * (r + 1) / 2 := by omega
    subst hi
    simp [Triangle.triLoop]
  | succ c ih =>
    intro rest i h
    have hne : ¬ i = r * (r + 1) / 2 := by omega
    have hsh : c + 1 + rest = c + rest + 1 := by omega
    simp only [Triangle.triLoop, if_neg hne, hsh, ih rest (i + 1) (by omega)]
    simp [List.replicate_succ]

/-- The loop starting at the beginning of row `t + 1` (counter
`t * (t + 1) / 2 + 1`) with fuel for `d` rows prints exactly rows
`t + 1, ..., t + d`. -/
theorem triLoop_rows :
    ∀ d t, Triangle.triLoop (t + 1) (t * (t + 1) / 2 + 1) (Triangle.fuelFrom (t + 1) d)
      = Triangle.rowsFrom (t + 1) d := by
  intro d
  induction d with
  | zero => intro t; simp [Triangle.fuelFrom, Triangle.triLoop, Triangle.rowsFrom]
  | succ d ih =>
    intro t
    have hf : Triangle.fuelFrom (t + 1) (d + 1)
        = t + Triangle.fuelFrom (t + 1 + 1) d + 1 := by
      simp only [Triangle.fuelFrom]; omega
    have hstart : t * (t + 1) / 2 + 1 + t = (t + 1) * (t + 1 + 1) / 2 := by
      have := tri_step t; omega
    rw [hf, triLoop_row (t + 1) t (Triangle.fuelFrom (t + 1 + 1) d) _ hstart, ih (t + 1)]
    simp [Triangle.rowsFrom]

/-- Total fuel bookkeeping: the loop fuel for rows `t + 1, ..., t + d`
together with the glyphs of the first `t` rows is the triangular number
of `t + d`. -/
theorem fuelFrom_total :
    ∀ d t, t * (t + 1) / 2 + Triangle.fuelFrom (t + 1) d
      = (t + d) * (t + d + 1) / 2 := by
  intro d
  induction d with
  | zero => intro t; simp [Triangle.fuelFrom]
  | succ d ih =>
    intro t
    have h1 := tri_step t
    have h2 := ih (t + 1)
    have he : (t + (d + 1)) * (t + (d + 1) + 1) = (t + 1 + d) * (t + 1 + d + 1) := by
      ring
    simp only [Triangle.fuelFrom]
    omega

/-- `rowsFrom` written as a map over `List.range`. -/
theorem rowsFrom_eq_range :
    ∀ d r, Triangle.rowsFrom (r + 1) d
      = ((List.range d).map fun k => List.replicate (r + 1 + k) "* " ++ ["\n"]).flatten := by
  intro d
  induction d with
  | zero => intro r; simp [Triangle.rowsFrom]
  | succ d ih =>
    intro r
    rw [List.range_succ_eq_map]
    simp only [List.map_cons, List.map_map, List.flatten_cons, Function.comp_def]
    have harg : (fun k => List.replicate (r + 1 + (k + 1)) "* " ++ ["\n"])
        = fun k => List.replicate (r + 1 + 1 + k) "* " ++ ["\n"] := by
      funext k
      have : r + 1 + (k + 1) = r + 1 + 1 + k := by omega
      rw [this]
    simp only [Triangle.rowsFrom, Nat.add_zero, harg, ih (r + 1)]

/-- C1: the diagonal-decomposition cell value of `print_concentric_square`
equals the standard distance-from-nearest-edge concentric-ring value
`n - min (i, j, m-1-i, m-1-j)` on every cell of the `m × m` grid,
`m = 2n - 1`, for every `n ≥ 1`. -/
theorem concentric_cell_eq_ring_distance (n i j : Int) (hn : 1 ≤ n)
    (hi0 : 0 ≤ i) (hi : i < 2 * n - 1) (hj0 : 0 ≤ j) (hj : j < 2 * n - 1) :
    ConcentricSquare.cellValue n i j
      = n - min (min i j) (min (2 * n - 2 - i) (2 * n - 2 - j)) := by
  unfold ConcentricSquare.cellValue
  split <;> omega

/-- Witness for C1 at `n = 4`, cell `(5, 3)` (the lower-right region). -/
theorem concentric_cell_eq_ring_distance_witness :
    (1 : Int) ≤ 4 ∧ (0 : Int) ≤ 5 ∧ (5 : Int) < 2 * 4 - 1 ∧ (0 : Int) ≤ 3
      ∧ (3 : Int) < 2 * 4 - 1
      ∧ ConcentricSquare.cellValue 4 5 3
          = 4 - min (min 5 3) (min (2 * 4 - 2 - 5) (2 * 4 - 2 - 3)) :=
  ⟨by decide, by decide, by decide, by decide, by decide,
    concentric_cell_eq_ring_distance 4 5 3 (by decide) (by decide) (by decide)
      (by decide) (by decide)⟩

/-- C2: for every `n ≥ 1` the grid printed by `print_concentric_square n`
has exactly `2n-1` rows of `2n-1` integers each, every value is at most
`n`, the value `n` appears exactly on the border cells, the center cell
holds `1`, and the printed chunks are exactly the grid cells (each
followed by one space) with a newline per row. -/
theorem concentric_invariants (n : Int) (hn : 1 ≤ n) :
    (ConcentricSquare.squareGrid n).length = (2 * n - 1).toNat
  ∧ (∀ row ∈ ConcentricSquare.squareGrid n, row.length = (2 * n - 1).toNat)
  ∧ (∀ i j : Int, 0 ≤ i → i < 2 * n - 1 → 0 ≤ j → j < 2 * n - 1 →
      ConcentricSquare.cellValue n i j ≤ n
      ∧ (ConcentricSquare.cellValue n i j = n
          ↔ i = 0 ∨ j = 0 ∨ i = 2 * n - 2 ∨ j = 2 * n - 2))
  ∧ ConcentricSquare.cellValue n (n - 1) (n - 1) = 1
  ∧ ConcentricSquare.print_concentric_square n
      = ((ConcentricSquare.squareGrid n).map fun row =>
          (row.map fun v => toString v ++ " ") ++ ["\n"]).flatten := by
  refine ⟨?_, ?_, ?_, ?_, ?_⟩
  · simp [ConcentricSquare.squareGrid]
  · intro row hr
    simp only [ConcentricSquare.squareGrid, List.mem_map] at hr
    obtain ⟨i, _, rfl⟩ := hr
    simp
  · intro i j hi0 hi hj0 hj
    constructor
    · unfold ConcentricSquare.cellValue
      split <;> omega
    · unfold ConcentricSquare.cellValue
      split <;> omega
  · unfold ConcentricSquare.cellValue
    split <;> omega
  · unfold ConcentricSquare.print_concentric_square ConcentricSquare.squareGrid
    rw [if_neg (by omega)]
    simp only [List.map_map, Function.comp_def]

/-- Witness for C2 at `n = 1`: the grid is the single cell `1`. -/
theorem concentric_invariants_witness :
    (1 : Int) ≤ 1
  ∧ ((ConcentricSquare.squareGrid 1).length = ((2 : Int) * 1 - 1).toNat
  ∧ (∀ row ∈ ConcentricSquare.squareGrid 1, row.length = ((2 : Int) * 1 - 1).toNat)
  ∧ (∀ i j : Int, 0 ≤ i → i < 2 * 1 - 1 → 0 ≤ j → j < 2 * 1 - 1 →
      ConcentricSquare.cellValue 1 i j ≤ 1
      ∧ (ConcentricSquare.cellValue 1 i j = 1
          ↔ i = 0 ∨ j = 0 ∨ i = 2 * 1 - 2 ∨ j = 2 * 1 - 2))
  ∧ ConcentricSquare.cellValue 1 (1 - 1) (1 - 1) = 1
  ∧ ConcentricSquare.print_concentric_square 1
      = ((ConcentricSquare.squareGrid 1).map fun row =>
          (row.map fun v => toString v ++ " ") ++ ["\n"]).flatten) :=
  ⟨by decide, concentric_invariants 1 (by decide)⟩

/-- C4: the grid of `print_concentric_square n` is symmetric under
transpose and under 180-degree rotation. -/
theorem concentric_symmetry (n i j : Int) (hn : 1 ≤ n)
    (hi0 : 0 ≤ i) (hi : i < 2 * n - 1) (hj0 : 0 ≤ j) (hj : j < 2 * n - 1) :
    ConcentricSquare.cellValue n i j = ConcentricSquare.cellValue n j i
  ∧ ConcentricSquare.cellValue n i j
      = ConcentricSquare.cellValue n (2 * n - 2 - i) (2 * n - 2 - j) := by
  unfold ConcentricSquare.cellValue
  constructor <;> (split <;> split <;> omega)

/-- Witness for C4 at `n = 4`, cell `(1, 5)`. -/
theorem concentric_symmetry_witness :
    (1 : Int) ≤ 4 ∧ (0 : Int) ≤ 1 ∧ (1 : Int) < 2 * 4 - 1
  ∧ (0 : Int) ≤ 5 ∧ (5 : Int) < 2 * 4 - 1
  ∧ (ConcentricSquare.cellValue 4 1 5 = ConcentricSquare.cellValue 4 5 1
     ∧ ConcentricSquare.cellValue 4 1 5
         = ConcentricSquare.cellValue 4 (2 * 4 - 2 - 1) (2 * 4 - 2 - 5)) :=
  ⟨by decide, by decide, by decide, by decide, by decide,
    concentric_symmetry 4 1 5 (by decide) (by decide) (by decide) (by decide)
      (by decide)⟩

/-- C5: `print_concentric_square 4` prints exactly the expected 7×7 grid,
each integer followed by one space and each row closed by a newline. -/
theorem concentric_render_four :
    String.join (ConcentricSquare.print_concentric_square 4)
      = "4 4 4 4 4 4 4 \n4 3 3 3 3 3 4 \n4 3 2 2 2 3 4 \n4 3 2 1 2 3 4 \n4 3 2 2 2 3 4 \n4 3 3 3 3 3 4 \n4 4 4 4 4 4 4 \n" := by
  decide

/-- C6: on the anti-diagonal `i + j = 2n - 2` the two region formulas
agree (`max (n-i) (n-j) = max (i-n) (j-n) + 2`), and consequently the
split with the strict condition (anti-diagonal in the lower region)
produces the same grid cell for cell. -/
theorem concentric_diagonal_split_equiv (n : Int) (hn : 1 ≤ n) :
    (∀ i j : Int, i + j = 2 * n - 2
      → max (n - i) (n - j) = max (i - n) (j - n) + 2)
  ∧ (∀ i j : Int, ConcentricSquare.cellValue n i j
      = ConcentricSquare.cellValueLowerDiag n i j) := by
  constructor
  · intro i j h
    omega
  · intro i j
    unfold ConcentricSquare.cellValue ConcentricSquare.cellValueLowerDiag
    split <;> split <;> omega

/-- Witness for C6 at `n = 4`: the diagonal cell `(2, 4)` and the
cell-for-cell agreement at `(5, 5)`. -/
theorem concentric_diagonal_split_equiv_witness :
    max ((4 : Int) - 2) (4 - 4) = max (2 - 4) (4 - 4) + 2
  ∧ ConcentricSquare.cellValue 4 5 5 = ConcentricSquare.cellValueLowerDiag 4 5 5 :=
  ⟨(concentric_diagonal_split_equiv 4 (by decide)).1 2 4 (by decide),
   (concentric_diagonal_split_equiv 4 (by decide)).2 5 5⟩

/-- C3: for every `n ≥ 1`, `print_triangle n` prints exactly `n` rows,
where row `k` (1-indexed) is `k` glyphs `"* "` followed immediately by a
newline, including after the final row. -/
theorem triangle_rows_correct (n : Int) (hn : 1 ≤ n) :
    Triangle.print_triangle n = Triangle.triangleRows n.toNat := by
  unfold Triangle.print_triangle
  rw [if_neg (by omega)]
  have h := triLoop_rows n.toNat 0
  have hfuel := fuelFrom_total n.toNat 0
  simp only [Nat.zero_mul, Nat.zero_div, Nat.zero_add] at h hfuel
  rw [hfuel] at h
  rw [h, rowsFrom_eq_range n.toNat 0, Triangle.triangleRows]
  simp [Nat.add_comm]

/-- Witness for C3 at `n = 4`: rows of 1, 2, 3, 4 glyphs. -/
theorem triangle_rows_correct_witness :
    (1 : Int) ≤ 4 ∧ Triangle.print_triangle 4 = Triangle.triangleRows (4 : Int).toNat :=
  ⟨by decide, triangle_rows_correct 4 (by decide)⟩

/-- C7: for `n ≤ 0` both rendering functions print exactly the error line
and no pattern rows, and the error is not fatal: `main` still exits 0 for
a parsed non-positive `n`. -/
theorem nonpositive_input_rejected (n : Int) (hn : n ≤ 0) :
    ConcentricSquare.print_concentric_square n = ["Error: n must be a positive integer\n"]
  ∧ Triangle.print_triangle n = ["Error: n must be a positive integer\n"]
  ∧ (ConcentricSquare.main (some n)).2 = 0
  ∧ (Triangle.main (some n)).2 = 0 := by
  refine ⟨?_, ?_, rfl, rfl⟩
  · unfold ConcentricSquare.print_concentric_square
    rw [if_pos hn]
  · unfold Triangle.print_triangle
    rw [if_pos hn]

/-- Witness for C7 at `n = 0` and `n = -5`. -/
theorem nonpositive_input_rejected_witness :
    (ConcentricSquare.print_concentric_square 0 = ["Error: n must be a positive integer\n"]
     ∧ Triangle.print_triangle 0 = ["Error: n must be a positive integer\n"]
     ∧ (ConcentricSquare.main (some 0)).2 = 0
     ∧ (Triangle.main (some 0)).2 = 0)
  ∧ (ConcentricSquare.print_concentric_square (-5) = ["Error: n must be a positive integer\n"]
     ∧ Triangle.print_triangle (-5) = ["Error: n must be a positive integer\n"]
     ∧ (ConcentricSquare.main (some (-5))).2 = 0
     ∧ (Triangle.main (some (-5))).2 = 0) :=
  ⟨nonpositive_input_rejected 0 (by decide),
   nonpositive_input_rejected (-5) (by decide)⟩

/-- C8: on parse failure both programs print the error line last and exit
with status 1; every successfully parsed input (including non-positive
values) exits with status 0. -/
theorem parse_failure_exit_codes :
    (ConcentricSquare.main none).2 = 1
  ∧ (Triangle.main none).2 = 1
  ∧ (ConcentricSquare.main none).1.getLast?
      = some "Invalid input. Please enter a positive integer.\n"
  ∧ (Triangle.main none).1.getLast?
      = some "Invalid input. Please enter a positive integer.\n"
  ∧ ∀ n : Int, (ConcentricSquare.main (some n)).2 = 0 ∧ (Triangle.main (some n)).2 = 0 :=
  ⟨rfl, rfl, by decide, by decide, fun n => ⟨rfl, rfl⟩⟩

/-- C9 counterexample: `visualize_regions` does not reject `n = 0`: it
prints its header line (and the closing blank line) with no error
indication anywhere in its output, although `main` invokes it for every
parsed value `≤ 7`, non-positive values included. -/
theorem visualize_regions_no_rejection :
    ConcentricSquare.visualize_regions 0
      = ["Region visualization (U = Upper-left, L = Lower-right):\n", "\n"]
  ∧ "Error: n must be a positive integer\n" ∉ ConcentricSquare.visualize_regions 0 := by
  decide

/-- C9 amended: the two rendering functions reject `n ≤ 0` with the error
line, but `visualize_regions` performs no validation: for `n ≤ 0` it
prints only its header and the closing blank line, with no error
indication, and `main` still invokes it (the parsed value is `≤ 7`). -/
theorem size_validation_amended (n : Int) (hn : n ≤ 0) :
    "Error: n must be a positive integer\n" ∈ ConcentricSquare.print_concentric_square n
  ∧ "Error: n must be a positive integer\n" ∈ Triangle.print_triangle n
  ∧ ConcentricSquare.visualize_regions n
      = ["Region visualization (U = Upper-left, L = Lower-right):\n", "\n"]
  ∧ "Error: n must be a positive integer\n" ∉ ConcentricSquare.visualize_regions n
  ∧ (∃ pre post, (ConcentricSquare.main (some n)).1
      = pre ++ ConcentricSquare.visualize_regions n ++ post) := by
  have hm : (2 * n - 1).toNat = 0 := by omega
  refine ⟨?_, ?_, ?_, ?_, ?_⟩
  · unfold ConcentricSquare.print_concentric_square
    rw [if_pos hn]
    simp
  · unfold Triangle.print_triangle
    rw [if_pos hn]
    simp
  · unfold ConcentricSquare.visualize_regions
    rw [hm]
    simp
  · unfold ConcentricSquare.visualize_regions
    rw [hm]
    simp
  · simp only [ConcentricSquare.main]
    rw [if_pos (show n ≤ 7 by omega)]
    refine ⟨["Concentric Square Pattern - Diagonal Decomposition\n",
      eqBar 50 ++ "\n\n",
      "Enter the size parameter n: ", "\n"],
      ["Concentric square pattern:\n"]
        ++ ConcentricSquare.print_concentric_square n
        ++ ["\n"]
        ++ (["\nExamples of other sizes:\n", "------------------------\n\n", "n = 3:\n"]
            ++ ConcentricSquare.print_concentric_square 3
            ++ ["\nn = 5:\n"] ++ ConcentricSquare.print_concentric_square 5), ?_⟩
    simp [List.append_assoc]

/-- Witness for the amended C9 at `n = 0`. -/
theorem size_validation_amended_witness :
    (0 : Int) ≤ 0
  ∧ ("Error: n must be a positive integer\n" ∈ ConcentricSquare.print_concentric_square 0
  ∧ "Error: n must be a positive integer\n" ∈ Triangle.print_triangle 0
  ∧ ConcentricSquare.visualize_regions 0
      = ["Region visualization (U = Upper-left, L = Lower-right):\n", "\n"]
  ∧ "Error: n must be a positive integer\n" ∉ ConcentricSquare.visualize_regions 0
  ∧ (∃ pre post, (ConcentricSquare.main (some 0)).1
      = pre ++ ConcentricSquare.visualize_regions 0 ++ post)) :=
  ⟨le_refl 0, size_validation_amended 0 (le_refl 0)⟩

/-- C10: for every parsed `n` (valid or not), after the user's pattern
both programs print the two hard-coded examples: sizes 3 and 5 for the
concentric-square program, sizes 3 and 6 for the triangle program. -/
theorem examples_always_printed (n : Int) :
    (∃ p, (ConcentricSquare.main (some n)).1
      = p ++ (["\nExamples of other sizes:\n", "------------------------\n\n", "n = 3:\n"]
          ++ ConcentricSquare.print_concentric_square 3
          ++ ["\nn = 5:\n"] ++ ConcentricSquare.print_concentric_square 5))
  ∧ (∃ q, (Triangle.main (some n)).1
      = q ++ (["\nExamples of other sizes:\n", "------------------------\n\n", "n = 3:\n"]
          ++ Triangle.print_triangle 3
          ++ ["\nn = 6:\n"] ++ Triangle.print_triangle 6)) := by
  constructor
  · refine ⟨["Concentric Square Pattern - Diagonal Decomposition\n",
      eqBar 50 ++ "\n\n",
      "Enter the size parameter n: ", "\n"]
      ++ (if n ≤ 7 then ConcentricSquare.visualize_regions n else [])
      ++ ["Concentric square pattern:\n"]
      ++ ConcentricSquare.print_concentric_square n
      ++ ["\n"], ?_⟩
    simp only [ConcentricSquare.main]
  · refine ⟨["Right Triangle Pattern - Single Loop Implementation\n",
      eqBar 51 ++ "\n\n",
      "Enter the height of the triangle: ", "\n"]
      ++ Triangle.print_triangle n
      ++ ["\n"], ?_⟩
    simp only [Triangle.main]
